import Mathlib

/-!
Verification of the query-translation and response-shaping pipeline of
`mcp_helper.py` (a Search Console MCP server).

Modelling conventions:
* Python dicts that the code reads field-by-field become structures with
  `Option` fields; a `none` field models an absent key, and the `KeyError`
  raised on access is modelled by an `Except.error` carrying Python's
  `str(KeyError(k))` rendering `'k'`.
* Exceptions are modelled with `Except String`; the messages follow the
  source's `f"..."` wrappers and Python's fixed texts (`"division by zero"`
  for `ZeroDivisionError`, `"list index out of range"` for `IndexError`).
* All external collaborators (the Gemini HTTP call, `json.loads` on the model
  output, base64/service-account decoding, and the Search Console API call)
  are oracles collected in a `World` record; the module-level globals
  `SEARCH_CONSOLE_KEY` and the wall clock also live there.
* Python floats are idealised as exact rationals; `round(x, 2)` and the
  `:.2f` format both round half-to-even, which is CPython's behaviour on
  values whose binary representation is exact.
* `str.replace` is re-implemented (`str_replace`) because it must be
  executable in the kernel; it performs left-to-right non-overlapping
  replacement of all occurrences, as in Python (empty patterns never occur
  in the source).
-/

-- ===========================================================================
-- Python-stdlib helpers
-- ===========================================================================

/-- One step-per-character worker for `str_replace`; the fuel starts at the
length of the subject and each step consumes at least one character. -/
def replaceAux (pat rep : List Char) : Nat → List Char → List Char
  | _, [] => []
  | 0, l => l
  | fuel + 1, c :: rest =>
    if (c :: rest).take pat.length = pat then
      rep ++ replaceAux pat rep fuel ((c :: rest).drop pat.length)
    else
      c :: replaceAux pat rep fuel rest

/-- Model of Python `s.replace(pattern, replacement)` for non-empty patterns:
replaces every non-overlapping occurrence, scanning left to right. -/
def str_replace (s pattern replacement : String) : String :=
  match pattern.data with
  | [] => s
  | _ => String.mk (replaceAux pattern.data replacement.data s.data.length s.data)

/-- Round a rational to the nearest integer, ties to even (Python's rounding
for `round` and `format`, idealised over exact rationals). -/
def roundHalfEven (x : ℚ) : ℤ :=
  let n := x.num
  let d := (x.den : ℤ)
  let f := Int.fdiv n d
  let r2 := 2 * (n - f * d)
  if r2 < d then f
  else if r2 > d then f + 1
  else if f % 2 = 0 then f else f + 1

/-- Model of Python `round(x, 2)`. -/
def pyRound2 (x : ℚ) : ℚ := (roundHalfEven (x * 100) : ℚ) / 100

/-- Model of Python `f"{x:.2f}"`: always two digits after the point. -/
def fmt2 (x : ℚ) : String :=
  let t := roundHalfEven (x * 100)
  let sign := if t < 0 then "-" else ""
  let a := t.natAbs
  sign ++ toString (a / 100) ++ "." ++ toString (a / 10 % 10) ++ toString (a % 10)

/-- Model of Python `str(x)` for a float that is an exact multiple of 0.01
(the outputs of `round(_, 2)`): trailing zero dropped, but at least one
digit after the point, as in `str(3.0) = "3.0"`, `str(3.1) = "3.1"`. -/
def floatStr2 (x : ℚ) : String :=
  let t := roundHalfEven (x * 100)
  let sign := if t < 0 then "-" else ""
  let a := t.natAbs
  let d1 := a / 10 % 10
  let d2 := a % 10
  sign ++ toString (a / 100) ++ "." ++ (if d2 = 0 then toString d1 else toString d1 ++ toString d2)

/-- Model of the Python f-string rendering of an optional string
(`None` prints as `"None"`). -/
def pyShowOpt (o : Option String) : String :=
  match o with
  | none => "None"
  | some s => s

-- ===========================================================================
-- Spec-side measure: inclusive day count of a date span
-- ===========================================================================

/-- Numeric value of a decimal digit character. -/
def digitVal (c : Char) : Option Nat :=
  if c.isDigit then some (c.toNat - 48) else none

/-- Parse a `YYYY-MM-DD` string into year, month and day. -/
def parseDate (s : String) : Option (Nat × Nat × Nat) :=
  match s.data with
  | [y1, y2, y3, y4, '-', m1, m2, '-', d1, d2] => do
    let a ← digitVal y1; let b ← digitVal y2; let c ← digitVal y3; let d ← digitVal y4
    let e ← digitVal m1; let f ← digitVal m2
    let g ← digitVal d1; let h ← digitVal d2
    pure (1000 * a + 100 * b + 10 * c + d, 10 * e + f, 10 * g + h)
  | _ => none

/-- Day number of a proleptic-Gregorian calendar date (standard
days-from-civil computation, valid for years from 1 on). -/
def daysFromCivil (y m d : Nat) : Nat :=
  let y' := if m ≤ 2 then y - 1 else y
  let era := y' / 400
  let yoe := y' % 400
  let mp := (m + 9) % 12
  let doy := (153 * mp + 2) / 5 + d - 1
  let doe := yoe * 365 + yoe / 4 - yoe / 100 + doy
  era * 146097 + doe

/-- Inclusive number of calendar days spanned by `[startDate, endDate]`
(the quantity the spec's trend rule bounds `rowLimit` by). -/
def inclusiveDayCount (sd ed : String) : Option Nat := do
  let (y1, m1, d1) ← parseDate sd
  let (y2, m2, d2) ← parseDate ed
  pure (daysFromCivil y2 m2 d2 - daysFromCivil y1 m1 d1 + 1)

/-- Arithmetic mean of a list of rationals (the spec's notion of average). -/
def arithMean (l : List ℚ) : ℚ := l.sum / (l.length : ℚ)

-- ===========================================================================
-- Data model
-- ===========================================================================

/-- One row of a Search Console API response (`keys`, `clicks`,
`impressions`, `ctr` as a fraction, `position`). -/
structure GscRow where
  keys : List String
  clicks : Int
  impressions : Int
  ctr : ℚ
  position : ℚ
deriving DecidableEq

/-- The raw Search Console response envelope; `rows := none` models a
response JSON without a `rows` key. -/
structure GscResponse where
  rows : Option (List GscRow)
deriving DecidableEq

/-- The structured query dict obtained from `json.loads` on the cleaned model
output; only the keys the source reads are modelled, each optional because
the model may omit it. -/
structure ApiQueryObj where
  startDate : Option String
  endDate : Option String
  dimensions : Option (List String)
  rowLimit : Option Nat
  startRow : Option Nat
deriving DecidableEq

/-- Decoded service-account key info (opaque payload). -/
structure KeyInfo where
  info : String
deriving DecidableEq

/-- Result of `service_account.Credentials.from_service_account_info`. -/
structure Credentials where
  key_info : KeyInfo
  scopes : List String
deriving DecidableEq

/-- Result of `googleapiclient.discovery.build(...)`. -/
structure Service where
  creds : Credentials
deriving DecidableEq

/-- One entry of the cleaned `results` list built inside
`make_gsc_api_request` (built per row, then discarded by the source). -/
structure CleanRow where
  dimVals : List (String × String)
  clicks : Int
  impressions : Int
  ctr : ℚ
  position : ℚ
deriving DecidableEq

/-- The dict returned by `get_search_console_data`; a `none` field models an
absent key (the success and no-results dicts carry different keys). -/
structure ResultDict where
  api_response : Option String
  api_query : Option String
  user_query : Option String
  query : Option String
  status : String
deriving DecidableEq

/-- Outcome of `requests.post(...)` + `raise_for_status()` + `.json()` on the
Gemini endpoint: a transport error (`requests.exceptions.RequestException`),
a body-decoding error (`ValueError` from `.json()`), or a decoded body whose
`candidates` member is absent (`none`) or a list of generated texts. -/
inductive GeminiOutcome where
  | requestError (msg : String)
  | jsonError (msg : String)
  | ok (candidates : Option (List String))
deriving DecidableEq

/-- The environment and external collaborators of one tool invocation:
environment variables, the Gemini call outcome, `json.loads` on the cleaned
model output, base64+JSON decoding of the service key, the Search Console
API call, and the wall clock. -/
structure World where
  gemini_api_key : Option String
  geminiHttp : GeminiOutcome
  jsonLoads : String → Except String ApiQueryObj
  gsc_base64_key : Option String
  decodeServiceKey : String → Except String KeyInfo
  gscCall : ApiQueryObj → Except String GscResponse
  now : String

/-- One content block of a tool-call result. -/
structure ContentBlock where
  type : String
  text : String
deriving DecidableEq

/-- The wire shape of a tool-call result; the Python success dict has no
`isError` key, modelled as `isError := false`. -/
structure ToolCallResult where
  isError : Bool
  content : List ContentBlock
deriving DecidableEq

/-- The `arguments` member of a tools/call request: either an already-decoded
object (`obj`, carrying its optional `query` string field; an absent
`arguments` key defaults to the empty object `obj none`), or a string
payload together with the outcome of `json.loads` on it (`none` when
undecodable). -/
inductive ArgsVal where
  | obj (query : Option String)
  | str (s : String) (decoded : Option (Option String))
deriving DecidableEq

/-- Params of a tools/call request. -/
structure Params where
  name : Option String
  arguments : ArgsVal
deriving DecidableEq

/-- Property entry of the tool input schema. -/
structure SchemaProperty where
  type : String
  description : String
deriving DecidableEq

/-- The tool input schema. -/
structure InputSchema where
  type : String
  properties : List (String × SchemaProperty)
  required : List String
  additionalProperties : Bool
deriving DecidableEq

/-- The tool's `annotations` object (field named `annots` here). -/
structure ToolAnnots where
  read_only : Bool
deriving DecidableEq

/-- One tool descriptor of the tools/list result. -/
structure ToolDescriptor where
  name : String
  description : String
  annots : ToolAnnots
  inputSchema : InputSchema
deriving DecidableEq

/-- The tools/list result. -/
structure ToolsListResult where
  tools : List ToolDescriptor
deriving DecidableEq

-- ===========================================================================
-- Embedding of mcp_helper.py
-- ===========================================================================

/-- Module-level constant `site_url` of `mcp_helper.py`. -/
def site_url : String := "sc-domain:www.yourdomain.ai"

/-- Embedding of `clean_query`.  NOTE this mirrors the source faithfully: the
first replacement's result (`clean_response_once`) is discarded, and the
returned value has only the bare three-backtick fences removed from the
original input. -/
def clean_query (generated_api_query : String) : String :=
  let search_string := "```json"
  let search_string_2 := "```"
  let clean_response_once := str_replace generated_api_query search_string ""
  let clean_response_final := str_replace generated_api_query search_string_2 ""
  clean_response_final

/-- Embedding of `credentials_from_base64_env`: the `base64_key` parameter is
ignored; the module-level `gsc_base64_key` (in `World`) is read instead, and
a falsy value raises `ValueError` whose message interpolates the falsy value
itself. -/
def credentials_from_base64_env (w : World) (base64_key : Option String)
    (scopes : List String) : Except String Credentials :=
  let encoded_key := w.gsc_base64_key
  if encoded_key = none ∨ encoded_key = some "" then
    Except.error ("Environment variable '" ++ pyShowOpt encoded_key ++ "' not found or is empty.")
  else
    match w.decodeServiceKey (pyShowOpt encoded_key) with
    | Except.error e => Except.error e
    | Except.ok key_info => Except.ok { key_info := key_info, scopes := scopes }

/-- Embedding of `create_gsc_service_obj`: the parameter is immediately
overwritten by the module-level `gsc_base64_key`. -/
def create_gsc_service_obj (w : World) (base64_key : Option String) : Except String Service :=
  let base64_key := w.gsc_base64_key
  let scope := ["https://www.googleapis.com/auth/webmasters.readonly"]
  match credentials_from_base64_env w base64_key scope with
  | Except.error e => Except.error e
  | Except.ok credentials => Except.ok { creds := credentials }

/-- The row-cleaning loop of `make_gsc_api_request`: per row it reads
`payload['dimensions']` (KeyError if absent) and `row['keys'][i]` for each
dimension index (IndexError if `keys` is shorter), building the `results`
list that the source then discards. -/
def cleanRowsAux (dims : Option (List String)) : List GscRow → Except String (List CleanRow)
  | [] => Except.ok []
  | r :: rs =>
    match dims with
    | none => Except.error "'dimensions'"
    | some ds =>
      if r.keys.length < ds.length then Except.error "list index out of range"
      else
        match cleanRowsAux (some ds) rs with
        | Except.error e => Except.error e
        | Except.ok rest =>
          Except.ok ({ dimVals := ds.zip r.keys
                     , clicks := r.clicks
                     , impressions := r.impressions
                     , ctr := pyRound2 (r.ctr * 100)
                     , position := pyRound2 r.position } :: rest)

/-- Embedding of `make_gsc_api_request`: submits the payload verbatim, reads
`response['rows']` (KeyError if absent), builds the cleaned `results` list,
and returns the raw response. -/
def make_gsc_api_request (service : Service) (siteUrl : String)
    (payload : ApiQueryObj) (w : World) : Except String GscResponse :=
  match w.gscCall payload with
  | Except.error e => Except.error e
  | Except.ok response =>
    match response.rows with
    | none => Except.error "'rows'"
    | some rows =>
      match cleanRowsAux payload.dimensions rows with
      | Except.error e => Except.error e
      | Except.ok _results => Except.ok response

/-- Aggregate `total_clicks = sum(row["clicks"] for row in data["rows"])`. -/
def total_clicks (rows : List GscRow) : Int := (rows.map GscRow.clicks).sum

/-- Aggregate `total_impressions = sum(row["impressions"] ...)`. -/
def total_impressions (rows : List GscRow) : Int := (rows.map GscRow.impressions).sum

/-- Aggregate `avg_ctr = (sum(row["ctr"] ...) / len(rows)) * 100`. -/
def avg_ctr (rows : List GscRow) : ℚ :=
  ((rows.map GscRow.ctr).sum / (rows.length : ℚ)) * 100

/-- Aggregate `avg_position = sum(row["position"] ...) / len(rows)`. -/
def avg_position (rows : List GscRow) : ℚ :=
  (rows.map GscRow.position).sum / (rows.length : ℚ)

/-- The `summary_section` string built by `format_search_console_data`. -/
def summary_section (rows : List GscRow) : String :=
  "Summary of metrics across selected period:\n" ++
  "  - Total Impressions: " ++ toString (total_impressions rows) ++ "\n" ++
  "  - Total Clicks: " ++ toString (total_clicks rows) ++ "\n" ++
  "  - Average CTR: " ++ fmt2 (avg_ctr rows) ++ "%\n" ++
  "  - Average Rank: " ++ fmt2 (avg_position rows) ++ "\n"

/-- The fixed table header of the report. -/
def table_header : String := "Date | Clicks | Impressions | CTR (%) | Average Position"

/-- The divider `"-" * len(table_header)`. -/
def table_divider : String := String.mk (List.replicate table_header.length '-')

/-- The table-row loop of `format_search_console_data`: each line reads
`row["keys"][0]` (IndexError if `keys` is empty) and renders clicks,
impressions, `round(ctr*100, 2)` and `round(position, 2)`. -/
def tableRows : List GscRow → Except String (List String)
  | [] => Except.ok []
  | row :: rest =>
    match row.keys with
    | [] => Except.error "list index out of range"
    | date :: _ =>
      match tableRows rest with
      | Except.error e => Except.error e
      | Except.ok tail =>
        Except.ok ((date ++ " | " ++ toString row.clicks ++ " | " ++ toString row.impressions
          ++ " | " ++ floatStr2 (pyRound2 (row.ctr * 100)) ++ "% | "
          ++ floatStr2 (pyRound2 row.position)) :: tail)

/-- Python single-quoted string rendering used by `str(dict)`. -/
def pyQuote (s : String) : String := "'" ++ s ++ "'"

/-- Python `str` of a list of strings. -/
def reprStrList (l : List String) : String :=
  "[" ++ String.intercalate ", " (l.map pyQuote) ++ "]"

/-- Model of Python `str(api_query_obj)` restricted to the modelled keys, in
their canonical order. -/
def reprApiQueryObj (o : ApiQueryObj) : String :=
  let fields :=
    (match o.startDate with | some v => ["'startDate': " ++ pyQuote v] | none => []) ++
    (match o.endDate with | some v => ["'endDate': " ++ pyQuote v] | none => []) ++
    (match o.dimensions with | some v => ["'dimensions': " ++ reprStrList v] | none => []) ++
    (match o.rowLimit with | some v => ["'rowLimit': " ++ toString v] | none => []) ++
    (match o.startRow with | some v => ["'startRow': " ++ toString v] | none => [])
  "\x7b" ++ String.intercalate ", " fields ++ "\x7d"

/-- The report f-string up to (excluding) the embedded generation timestamp;
this part is constant text. -/
def report_head : String :=
  "\n### Search Console Data ###\n\n" ++
  "This data set helps businesses understand how they are showing up on Google Search. \n\n" ++
  "GSC data typically contains information about the following metrics:\n" ++
  "- Search Impressions\n- Search Clicks\n- CTR (Click-Through Rate)\n- Average Rank (Search Position)\n\n" ++
  "and can be segemented across the following dimensions:\n" ++
  "- Date\n- Country\n- Page\n- Query\n- Device\n\n" ++
  "The following query has been requested by the user on "

/-- The report f-string after the embedded generation timestamp. -/
def report_tail (query start_date end_date : String) (api_query_obj : ApiQueryObj)
    (rows : List GscRow) (table_rows : List String) : String :=
  " for the date range " ++ start_date ++ " to " ++ end_date ++ ":    \n" ++
  query ++ "\n\n" ++
  "The data presented below has been pulled to help answer the user's question using this API payload object:\n" ++
  reprApiQueryObj api_query_obj ++ "\n\n" ++
  "Please review this data in detail and finalize the user's request with an analysis of the facts presented below:\n\n" ++
  summary_section rows ++ "\n\n" ++
  table_header ++ "\n" ++ table_divider ++ "\n" ++
  String.intercalate "\n" table_rows ++ "\n\n"

/-- Embedding of `format_search_console_data`.  The averages divide by
`len(data["rows"])` with no guard: an empty row list raises
`ZeroDivisionError` (Python evaluates `avg_ctr` before building any table),
and a missing `rows` key raises `KeyError`. -/
def format_search_console_data (data : GscResponse) (query start_date end_date : String)
    (api_query_obj : ApiQueryObj) (timestamp : String) : Except String String :=
  match data.rows with
  | none => Except.error "'rows'"
  | some rows =>
    if rows = [] then Except.error "division by zero"
    else
      match tableRows rows with
      | Except.error e => Except.error e
      | Except.ok table_rows =>
        Except.ok (report_head ++ (timestamp ++
          report_tail query start_date end_date api_query_obj rows table_rows))

/-- Embedding of `get_search_console_data`.  The argument is the `query`
field of the arguments dict (the only key the source reads).  Failure
messages follow the source: `ValueError`s raised before the `try` block
propagate bare; `RequestException` is wrapped as `"Gemini API request
failed: ..."`; every other failure inside the block is wrapped as `"Error
processing Gemini API response: ..."`. -/
def get_search_console_data (w : World) (arguments : Option String) : Except String ResultDict :=
  match arguments with
  | none => Except.error "query is required"
  | some query =>
    if query = "" then Except.error "query is required"
    else
      match w.gemini_api_key with
      | none => Except.error "GEMINI_API_KEY environment variable is not set"
      | some gemini_api_key =>
        if gemini_api_key = "" then Except.error "GEMINI_API_KEY environment variable is not set"
        else
          match w.geminiHttp with
          | GeminiOutcome.requestError e => Except.error ("Gemini API request failed: " ++ e)
          | GeminiOutcome.jsonError e => Except.error ("Error processing Gemini API response: " ++ e)
          | GeminiOutcome.ok candidates =>
            match candidates with
            | some (generated_api_query :: _) =>
              match w.jsonLoads (clean_query generated_api_query) with
              | Except.error e => Except.error ("Error processing Gemini API response: " ++ e)
              | Except.ok api_query_obj =>
                match api_query_obj.startDate with
                | none => Except.error "Error processing Gemini API response: 'startDate'"
                | some start_date =>
                  match api_query_obj.endDate with
                  | none => Except.error "Error processing Gemini API response: 'endDate'"
                  | some end_date =>
                    match create_gsc_service_obj w w.gsc_base64_key with
                    | Except.error e => Except.error ("Error processing Gemini API response: " ++ e)
                    | Except.ok service =>
                      match make_gsc_api_request service site_url api_query_obj w with
                      | Except.error e => Except.error ("Error processing Gemini API response: " ++ e)
                      | Except.ok api_response =>
                        match format_search_console_data api_response query start_date end_date
                            api_query_obj w.now with
                        | Except.error e => Except.error ("Error processing Gemini API response: " ++ e)
                        | Except.ok llm_response =>
                          Except.ok { api_response := some llm_response
                                    , api_query := some generated_api_query
                                    , user_query := some query
                                    , query := none
                                    , status := "success" }
            | _ =>
              Except.ok { api_response := none
                        , api_query := some "No results generated from Gemini API"
                        , user_query := none
                        , query := some query
                        , status := "no_results" }

/-- Embedding of `handle_tools_list` (the `annotations` key of the source is
the `annots` field; note the source sets `read_only` to `False`). -/
def handle_tools_list : ToolsListResult :=
  { tools :=
      [ { name := "search_console_query"
        , description := "a tool that helps translate natural language user requests into Google Search Console API requests"
        , annots := { read_only := false }
        , inputSchema :=
            { type := "object"
            , properties :=
                [ ("query",
                   { type := "string"
                   , description := "The full natural language query from the user requesting data from Google Search Console." }) ]
            , required := ["query"]
            , additionalProperties := false } } ] }

/-- Embedding of `handle_tool_call`: decodes string arguments, rejects
unknown tool names, and catches every pipeline exception, converting it into
an error-shaped content result.  The success branch reads
`result.get("api_response", "")`. -/
def handle_tool_call (w : World) (params : Params) : ToolCallResult :=
  let tool_name := params.name
  let dispatch : Option String → ToolCallResult := fun queryField =>
    if tool_name ≠ some "search_console_query" then
      { isError := true
      , content := [{ type := "text", text := "Tool not found: " ++ pyShowOpt tool_name }] }
    else
      match get_search_console_data w queryField with
      | Except.error e =>
        { isError := true
        , content := [{ type := "text", text := "Tool error (search_console_query): " ++ e }] }
      | Except.ok result =>
        let text_value := result.api_response.getD ""
        { isError := false, content := [{ type := "text", text := text_value }] }
  match params.arguments with
  | ArgsVal.str _ none =>
    { isError := true
    , content := [{ type := "text", text := "Invalid arguments: expected object or JSON string." }] }
  | ArgsVal.str _ (some queryField) => dispatch queryField
  | ArgsVal.obj queryField => dispatch queryField

-- ===========================================================================
-- Concrete worlds and inputs used by counterexamples and witnesses
-- ===========================================================================

/-- A neutral world: keys present, Gemini reachable but returning a body
without candidates, `json.loads` failing, service-key decoding succeeding,
and the Search Console API returning an empty row list. -/
def trivW : World :=
  { gemini_api_key := some "K"
  , geminiHttp := GeminiOutcome.ok none
  , jsonLoads := fun _ => Except.error "invalid json"
  , gsc_base64_key := some "B64KEY"
  , decodeServiceKey := fun _ => Except.ok { info := "svc-account" }
  , gscCall := fun _ => Except.ok { rows := some [] }
  , now := "2025-11-03 00:00:00" }

/-- A structured query over a 2-day span with the default dimension. -/
def q1 : ApiQueryObj :=
  { startDate := some "2025-01-01"
  , endDate := some "2025-01-02"
  , dimensions := some ["query"]
  , rowLimit := some 25
  , startRow := some 0 }

/-- World for the zero-row scenario: the model emits `"GEN1"`, which parses
to `q1`, and the reporting API returns zero matching rows. -/
def cexW1 : World :=
  { trivW with
    geminiHttp := GeminiOutcome.ok (some ["GEN1"])
  , jsonLoads := fun s => if s = "GEN1" then Except.ok q1 else Except.error "invalid json" }

/-- The service object built from `trivW`-style credentials. -/
def svc1 : Service :=
  { creds := { key_info := { info := "svc-account" }
             , scopes := ["https://www.googleapis.com/auth/webmasters.readonly"] } }

/-- A structured query with `date` among the dimensions, a 3-day inclusive
span, and `rowLimit` 1 (violating the trend rule). -/
def q2 : ApiQueryObj :=
  { startDate := some "2025-01-01"
  , endDate := some "2025-01-03"
  , dimensions := some ["date"]
  , rowLimit := some 1
  , startRow := some 0 }

/-- World for the trend-rule scenario: the model emits `"GEN2"`, which parses
to `q2`; the reporting-API oracle errors with `"probe"` exactly when it
receives `q2`, so a `"probe"` failure proves `q2` was forwarded verbatim. -/
def cexW2 : World :=
  { trivW with
    geminiHttp := GeminiOutcome.ok (some ["GEN2"])
  , jsonLoads := fun s => if s = "GEN2" then Except.ok q2 else Except.error "invalid json"
  , gscCall := fun qq => if qq = q2 then Except.error "probe" else Except.ok { rows := some [] } }

/-- A reporting-API oracle agreeing with `gB` at `q2` but not elsewhere. -/
def gA : ApiQueryObj → Except String GscResponse :=
  fun qq => if qq = q2 then Except.ok { rows := some [] } else Except.error "left"

/-- A reporting-API oracle agreeing with `gA` at `q2` but not elsewhere. -/
def gB : ApiQueryObj → Except String GscResponse :=
  fun qq => if qq = q2 then Except.ok { rows := some [] } else Except.error "right"

/-- A concrete non-empty row used by the aggregation witness. -/
def r0 : GscRow :=
  { keys := ["apple"], clicks := 3, impressions := 10, ctr := 3 / 100, position := 2 }

-- ===========================================================================
-- Theorems
-- ===========================================================================

/-- Claim C1, counterexample: with a reporting-API response carrying zero
matching rows, the pipeline does not return a `"no_results"` status; it
fails with the wrapped `ZeroDivisionError` raised inside
`format_search_console_data`. -/
theorem claim_C1_counterexample :
    get_search_console_data cexW1 (some "show me my clicks") =
      Except.error "Error processing Gemini API response: division by zero" := rfl

/-- Claim C1, amended: on a zero-row reporting-API response the pipeline does
invoke the formatter, whose division by the row count faults (Python
`ZeroDivisionError`, no guard); the exception is wrapped by the pipeline and
converted to an error-shaped tool result at the tool-call boundary. -/
theorem claim_C1_zero_rows_fault (w : World) (q k gen sd ed : String) (rest : List String)
    (obj : ApiQueryObj) (svc : Service) (resp : GscResponse)
    (hq : q ≠ "")
    (hk : w.gemini_api_key = some k) (hk2 : k ≠ "")
    (hh : w.geminiHttp = GeminiOutcome.ok (some (gen :: rest)))
    (hp : w.jsonLoads (clean_query gen) = Except.ok obj)
    (hsd : obj.startDate = some sd) (hed : obj.endDate = some ed)
    (hsvc : create_gsc_service_obj w w.gsc_base64_key = Except.ok svc)
    (hcall : w.gscCall obj = Except.ok resp)
    (hrows : resp.rows = some []) :
    (∀ ts, format_search_console_data resp q sd ed obj ts = Except.error "division by zero") ∧
    get_search_console_data w (some q) =
      Except.error "Error processing Gemini API response: division by zero" ∧
    handle_tool_call w { name := some "search_console_query", arguments := ArgsVal.obj (some q) } =
      { isError := true
      , content := [{ type := "text"
                    , text := "Tool error (search_console_query): Error processing Gemini API response: division by zero" }] } := by
  have hfmt : ∀ ts, format_search_console_data resp q sd ed obj ts =
      Except.error "division by zero" :=
    fun ts => by simp [format_search_console_data, hrows]
  have hmain : get_search_console_data w (some q) =
      Except.error "Error processing Gemini API response: division by zero" := by
    simp [get_search_console_data, hq, hk, hk2, hh, hp, hsd, hed, hsvc,
      make_gsc_api_request, hcall, hrows, cleanRowsAux, format_search_console_data]
  refine ⟨hfmt, hmain, ?_⟩
  simp [handle_tool_call, hmain]

/-- Claim C1, witness: a concrete world in which every hypothesis of
`claim_C1_zero_rows_fault` holds. -/
theorem claim_C1_witness :
    ("show me my clicks" ≠ "") ∧
    cexW1.jsonLoads (clean_query "GEN1") = Except.ok q1 ∧
    cexW1.gscCall q1 = Except.ok { rows := some [] } ∧
    (∀ ts, format_search_console_data { rows := some [] } "show me my clicks"
      "2025-01-01" "2025-01-02" q1 ts = Except.error "division by zero") ∧
    get_search_console_data cexW1 (some "show me my clicks") =
      Except.error "Error processing Gemini API response: division by zero" := by
  have h := claim_C1_zero_rows_fault cexW1 "show me my clicks" "K" "GEN1"
    "2025-01-01" "2025-01-02" [] q1 svc1 { rows := some [] }
    (by decide) rfl (by decide) rfl rfl rfl rfl rfl rfl rfl
  exact ⟨by decide, rfl, rfl, h.1, h.2.1⟩

/-- Claim C2, counterexample: the model output `"GEN2"` parses to a
structured query with `date` among its dimensions, a 3-day inclusive span
and `rowLimit` 1, and the pipeline forwards exactly that query to the
reporting API (the `"probe"` oracle fires only on that exact payload): no
validation step raises the row limit. -/
theorem claim_C2_counterexample :
    q2.dimensions = some ["date"] ∧ q2.rowLimit = some 1 ∧
    q2.startDate = some "2025-01-01" ∧ q2.endDate = some "2025-01-03" ∧
    inclusiveDayCount "2025-01-01" "2025-01-03" = some 3 ∧ (1 : Nat) < 3 ∧
    cexW2.jsonLoads (clean_query "GEN2") = Except.ok q2 ∧
    get_search_console_data cexW2 (some "show my clicks trended daily") =
      Except.error "Error processing Gemini API response: probe" := by
  exact ⟨rfl, rfl, rfl, rfl, by decide, by decide, rfl, rfl⟩

/-- Claim C2, amended: the trend rule lives only in the instruction text sent
to the language model; the code performs no validation on the parsed query:
the pipeline's outcome depends on the reporting-API call only through its
value at the parsed query object, which is forwarded verbatim. -/
theorem claim_C2_no_row_limit_validation (w : World)
    (g g' : ApiQueryObj → Except String GscResponse)
    (q gen k : String) (rest : List String) (obj : ApiQueryObj)
    (hq : q ≠ "") (hk : w.gemini_api_key = some k) (hk2 : k ≠ "")
    (hh : w.geminiHttp = GeminiOutcome.ok (some (gen :: rest)))
    (hp : w.jsonLoads (clean_query gen) = Except.ok obj)
    (hg : g obj = g' obj) :
    get_search_console_data { w with gscCall := g } (some q) =
    get_search_console_data { w with gscCall := g' } (some q) := by
  simp [get_search_console_data, make_gsc_api_request, create_gsc_service_obj,
    credentials_from_base64_env, hq, hk, hk2, hh, hp, hg]

/-- Claim C2, witness: two reporting-API oracles that agree at `q2` yield the
same pipeline outcome. -/
theorem claim_C2_witness :
    gA q2 = gB q2 ∧
    get_search_console_data { cexW2 with gscCall := gA } (some "show my clicks trended daily") =
    get_search_console_data { cexW2 with gscCall := gB } (some "show my clicks trended daily") := by
  refine ⟨rfl, ?_⟩
  exact claim_C2_no_row_limit_validation cexW2 gA gB "show my clicks trended daily"
    "GEN2" "K" [] q2 (by decide) rfl (by decide) rfl rfl rfl

/-- Claim C3 (code bug): `clean_query` applies the second replacement to the
original input, discarding the first replacement's result, so the `json`
tag of an opening ` ```json ` fence survives cleaning; chaining the two
replacements (the evident intent) would have removed it. -/
theorem claim_C3_fence_tag_survives :
    clean_query "```json\n[1]\n```" = "json\n[1]\n" ∧
    str_replace (str_replace "```json\n[1]\n```" "```json" "") "```" "" = "\n[1]\n" ∧
    clean_query "```json\n[1]\n```" ≠ clean_query "\n[1]\n" := by
  exact ⟨by decide, by decide, by decide⟩

/-- Claim C4 (confirmed): the formatter's totals are the exact integer sums
of the per-row clicks and impressions, its average CTR is the arithmetic
mean of the per-row CTR fractions times 100, its average position is the
arithmetic mean of the per-row positions, and the summary block displays
each value rounded to two decimals (`fmt2`). -/
theorem claim_C4_formatter_aggregates (rows : List GscRow) (h : rows ≠ []) :
    total_clicks rows = (rows.map GscRow.clicks).sum ∧
    total_impressions rows = (rows.map GscRow.impressions).sum ∧
    avg_ctr rows = arithMean (rows.map GscRow.ctr) * 100 ∧
    avg_position rows = arithMean (rows.map GscRow.position) ∧
    summary_section rows =
      "Summary of metrics across selected period:\n" ++
      "  - Total Impressions: " ++ toString ((rows.map GscRow.impressions).sum) ++ "\n" ++
      "  - Total Clicks: " ++ toString ((rows.map GscRow.clicks).sum) ++ "\n" ++
      "  - Average CTR: " ++ fmt2 (arithMean (rows.map GscRow.ctr) * 100) ++ "%\n" ++
      "  - Average Rank: " ++ fmt2 (arithMean (rows.map GscRow.position)) ++ "\n" := by
  have hc : avg_ctr rows = arithMean (rows.map GscRow.ctr) * 100 := by
    simp [avg_ctr, arithMean]
  have hpos : avg_position rows = arithMean (rows.map GscRow.position) := by
    simp [avg_position, arithMean]
  exact ⟨rfl, rfl, hc, hpos,
    by simp [summary_section, hc, hpos, total_clicks, total_impressions]⟩

/-- Claim C4, witness: the aggregation facts at a concrete one-row set. -/
theorem claim_C4_witness :
    ([r0] ≠ ([] : List GscRow)) ∧
    (total_clicks [r0] = ([r0].map GscRow.clicks).sum ∧
     total_impressions [r0] = ([r0].map GscRow.impressions).sum ∧
     avg_ctr [r0] = arithMean ([r0].map GscRow.ctr) * 100 ∧
     avg_position [r0] = arithMean ([r0].map GscRow.position) ∧
     summary_section [r0] =
       "Summary of metrics across selected period:\n" ++
       "  - Total Impressions: " ++ toString (([r0].map GscRow.impressions).sum) ++ "\n" ++
       "  - Total Clicks: " ++ toString (([r0].map GscRow.clicks).sum) ++ "\n" ++
       "  - Average CTR: " ++ fmt2 (arithMean ([r0].map GscRow.ctr) * 100) ++ "%\n" ++
       "  - Average Rank: " ++ fmt2 (arithMean ([r0].map GscRow.position)) ++ "\n") :=
  ⟨by simp, claim_C4_formatter_aggregates [r0] (by simp)⟩

/-- Claim C5 (confirmed): a tools/call whose arguments lack a usable `query`
(missing or empty field, undecodable string payload, or a decoded payload
without or with an empty `query`) yields an error-shaped result with a
single text block; `handle_tool_call` is total, so nothing escapes the
boundary. -/
theorem claim_C5_input_error_shaped (w : World) (p : Params)
    (hn : p.name = some "search_console_query")
    (hbad : p.arguments = ArgsVal.obj none ∨ p.arguments = ArgsVal.obj (some "") ∨
            (∃ s, p.arguments = ArgsVal.str s none) ∨
            (∃ s, p.arguments = ArgsVal.str s (some none)) ∨
            (∃ s, p.arguments = ArgsVal.str s (some (some "")))) :
    (handle_tool_call w p).isError = true ∧
    ∃ t, (handle_tool_call w p).content = [{ type := "text", text := t }] := by
  rcases hbad with h | h | ⟨s, h⟩ | ⟨s, h⟩ | ⟨s, h⟩ <;>
    simp [handle_tool_call, get_search_console_data, hn, h]

/-- Claim C5, witness: a missing `query` field at concrete inputs. -/
theorem claim_C5_witness :
    ((Params.mk (some "search_console_query") (ArgsVal.obj none)).name =
      some "search_console_query") ∧
    (handle_tool_call trivW { name := some "search_console_query"
                            , arguments := ArgsVal.obj none }).isError = true ∧
    ∃ t, (handle_tool_call trivW { name := some "search_console_query"
                                 , arguments := ArgsVal.obj none }).content =
      [{ type := "text", text := t }] := by
  have h := claim_C5_input_error_shaped trivW
    { name := some "search_console_query", arguments := ArgsVal.obj none } rfl (Or.inl rfl)
  exact ⟨rfl, h.1, h.2⟩

/-- Claim C6 (confirmed): any decodable tools/call with a tool name other
than `search_console_query` returns exactly the `Tool not found` error shape
with the offending name interpolated; the result is the same for every
world, so the pipeline is never consulted. -/
theorem claim_C6_unknown_tool (w : World) (n s : String) (qf : Option String)
    (args : ArgsVal)
    (hn : n ≠ "search_console_query")
    (hargs : args = ArgsVal.obj qf ∨ args = ArgsVal.str s (some qf)) :
    handle_tool_call w { name := some n, arguments := args } =
      { isError := true
      , content := [{ type := "text", text := "Tool not found: " ++ n }] } := by
  rcases hargs with h | h <;> subst h <;>
    simp [handle_tool_call, pyShowOpt, hn]

/-- Claim C6, witness: the spec's own example name. -/
theorem claim_C6_witness :
    ("nonexistent_tool" ≠ "search_console_query") ∧
    handle_tool_call trivW { name := some "nonexistent_tool", arguments := ArgsVal.obj none } =
      { isError := true
      , content := [{ type := "text", text := "Tool not found: nonexistent_tool" }] } :=
  ⟨by decide,
   claim_C6_unknown_tool trivW "nonexistent_tool" "" none (ArgsVal.obj none)
     (by decide) (Or.inl rfl)⟩

/-- Claim C7, counterexample: there is exactly one descriptor, but its
annotations mark `read_only` as `false`, so the tool is not marked
read-only as the claim states. -/
theorem claim_C7_counterexample :
    handle_tools_list.tools.length = 1 ∧
    (handle_tools_list.tools.map fun t => t.annots.read_only) = [false] := ⟨rfl, rfl⟩

/-- Claim C7, amended: tools/list returns exactly one descriptor named
`search_console_query` with a natural-language description, an annotations
object whose `read_only` flag is `false`, and an object input schema
requiring the single string field `query` with no additional properties. -/
theorem claim_C7_descriptor_shape :
    ∃ t, handle_tools_list.tools = [t] ∧
      t.name = "search_console_query" ∧
      t.description = "a tool that helps translate natural language user requests into Google Search Console API requests" ∧
      t.annots.read_only = false ∧
      t.inputSchema.type = "object" ∧
      t.inputSchema.required = ["query"] ∧
      t.inputSchema.additionalProperties = false ∧
      (t.inputSchema.properties.map Prod.fst) = ["query"] ∧
      (t.inputSchema.properties.map fun p => p.2.type) = ["string"] :=
  ⟨_, rfl, rfl, rfl, rfl, rfl, rfl, rfl, rfl, rfl⟩

/-- Claim C8 (confirmed): the formatter is a pure function of its inputs and
the generation timestamp; for fixed inputs it either fails identically for
every timestamp, or its output factors as `a ++ timestamp ++ b` with `a`
and `b` independent of the timestamp, so two runs differ only at the
embedded timestamp. -/
theorem claim_C8_format_pure_mod_timestamp (data : GscResponse) (query sd ed : String)
    (obj : ApiQueryObj) :
    (∃ e, ∀ ts, format_search_console_data data query sd ed obj ts = Except.error e) ∨
    (∃ a b, ∀ ts, format_search_console_data data query sd ed obj ts =
      Except.ok (a ++ (ts ++ b))) := by
  cases hr : data.rows with
  | none => exact Or.inl ⟨"'rows'", fun ts => by simp [format_search_console_data, hr]⟩
  | some rows =>
    by_cases he : rows = []
    · exact Or.inl ⟨"division by zero",
        fun ts => by simp [format_search_console_data, hr, he]⟩
    · cases ht : tableRows rows with
      | error e =>
        exact Or.inl ⟨e, fun ts => by simp [format_search_console_data, hr, he, ht]⟩
      | ok body =>
        exact Or.inr ⟨report_head, report_tail query sd ed obj rows body,
          fun ts => by simp [format_search_console_data, hr, he, ht]⟩

/-- Claim C9 (confirmed): the `base64_key` argument of both credential
functions is dead — `credentials_from_base64_env` ignores it and
`create_gsc_service_obj` immediately overwrites it with the module-level
`gsc_base64_key` — so the result is the same for any two argument values. -/
theorem claim_C9_key_argument_noninterference (w : World) (k1 k2 : Option String)
    (scopes : List String) :
    credentials_from_base64_env w k1 scopes = credentials_from_base64_env w k2 scopes ∧
    create_gsc_service_obj w k1 = create_gsc_service_obj w k2 := ⟨rfl, rfl⟩

/-- Claim C10 (confirmed): when Gemini returns no candidates (key absent or
empty list), the pipeline returns the `"no_results"` dict without an
`api_response` key, and `handle_tool_call` converts it into a success-shaped
result whose single text block is empty, with no error flag. -/
theorem claim_C10_no_candidates (w : World) (q k : String)
    (hq : q ≠ "") (hk : w.gemini_api_key = some k) (hk2 : k ≠ "")
    (hcand : w.geminiHttp = GeminiOutcome.ok none ∨
             w.geminiHttp = GeminiOutcome.ok (some [])) :
    get_search_console_data w (some q) =
      Except.ok { api_response := none
                , api_query := some "No results generated from Gemini API"
                , user_query := none
                , query := some q
                , status := "no_results" } ∧
    handle_tool_call w { name := some "search_console_query"
                       , arguments := ArgsVal.obj (some q) } =
      { isError := false, content := [{ type := "text", text := "" }] } := by
  have h1 : get_search_console_data w (some q) =
      Except.ok { api_response := none
                , api_query := some "No results generated from Gemini API"
                , user_query := none
                , query := some q
                , status := "no_results" } := by
    rcases hcand with h | h <;> simp [get_search_console_data, hq, hk, hk2, h]
  refine ⟨h1, ?_⟩
  simp [handle_tool_call, h1]

/-- Claim C10, witness: the neutral world returns a candidate-less body. -/
theorem claim_C10_witness :
    ("show me my top queries" ≠ "") ∧
    trivW.gemini_api_key = some "K" ∧ ("K" ≠ "") ∧
    trivW.geminiHttp = GeminiOutcome.ok none ∧
    get_search_console_data trivW (some "show me my top queries") =
      Except.ok { api_response := none
                , api_query := some "No results generated from Gemini API"
                , user_query := none
                , query := some "show me my top queries"
                , status := "no_results" } ∧
    handle_tool_call trivW { name := some "search_console_query"
                           , arguments := ArgsVal.obj (some "show me my top queries") } =
      { isError := false, content := [{ type := "text", text := "" }] } := by
  have h := claim_C10_no_candidates trivW "show me my top queries" "K"
    (by decide) rfl (by decide) (Or.inl rfl)
  exact ⟨by decide, rfl, by decide, rfl, h.1, h.2⟩
